import Mathlib

/-!
Shallow embedding of the drei-vanilla core sources:
  * `src/core/CubeCamera.ts` — a frame-budgeted cubemap capture helper,
  * `src/core/Fisheye.ts` — a fisheye projector (cubemap capture, orthographic
    sphere projection, and inverse-projection ray picking).

Engine objects (textures, fog objects) carry no structure that the verified
code inspects beyond identity and truthiness, so they are modelled by
natural-number handles wrapped in `Option` (`none` models `undefined`/`null`).
JavaScript numbers are modelled by `ℚ` in the discrete CubeCamera component
and by `ℝ` in the geometric Fisheye component (whose code uses `Math.sqrt`
and trigonometry).
-/

namespace DreiVanilla

/-! ## CubeCamera (`src/core/CubeCamera.ts`) -/

/-- The scene fields that `CubeCamera.update` reads and writes:
`scene.fog` and `scene.background`, each an engine object or `null`,
modelled by handles. -/
structure Scene where
  fog : Option Nat
  background : Option Nat
deriving DecidableEq, Repr

/-- `CubeCameraProps` after destructuring defaults: `resolution`, `near`,
`far`, `frames` (`none` models `Infinity`), `envMap`, `fog`. -/
structure CubeCameraProps where
  resolution : ℚ := 256
  near : ℚ := 1 / 10
  far : ℚ := 1000
  frames : Option ℚ := none
  envMap : Option Nat := none
  fog : Option Nat := none
deriving DecidableEq, Repr

/-- JavaScript `a || b` on engine-object-or-undefined values: an object is
always truthy, `undefined`/`null` is falsy. -/
def jsOr (a b : Option Nat) : Option Nat :=
  match a with
  | some v => some v
  | none => b

/-- The state captured and mutated by the `CubeCamera` closure: the
destructured `frames` binding (fixed at construction), the mutable `params`
record returned to the caller, the `count` counter, the rig `group.visible`
flag, the scene, and — as instrumentation of the render target contents —
the list of executed captures, each recording the `(background, fog)` pair
the scene held while `camera.update(renderer, scene)` ran. -/
structure CubeCameraState where
  frames0 : Option ℚ
  params : CubeCameraProps
  count : Nat
  groupVisible : Bool
  scene : Scene
  captureLog : List (Option Nat × Option Nat)
deriving DecidableEq, Repr

/-- The guard of `update()`: `frames === Infinity || count < frames`,
where `frames` is the construction-time destructured binding. -/
def framesCheck (frames0 : Option ℚ) (count : Nat) : Bool :=
  match frames0 with
  | none => true
  | some k => decide ((count : ℚ) < k)

/-- `CubeCamera(renderer, scene, props)`: builds the closure state with
`count = 0`; the destructured `frames` is captured separately from the
mutable `params` record. -/
def CubeCamera.construct (scene : Scene) (props : CubeCameraProps) : CubeCameraState :=
  { frames0 := props.frames
    params := props
    count := 0
    groupVisible := true
    scene := scene
    captureLog := [] }

/-- `update()` when `camera.update(renderer, scene)` returns normally:
if under budget, hide the group, substitute `params.envMap || background`
and `params.fog || fog` onto the scene, perform the capture, restore fog
and background, unhide the group and increment `count`; otherwise do
nothing. -/
def CubeCameraState.update (s : CubeCameraState) : CubeCameraState :=
  if framesCheck s.frames0 s.count then
    let originalFog := s.scene.fog
    let originalBackground := s.scene.background
    let bgDuring := jsOr s.params.envMap originalBackground
    let fogDuring := jsOr s.params.fog originalFog
    { s with
      scene := { fog := originalFog, background := originalBackground }
      groupVisible := true
      count := s.count + 1
      captureLog := s.captureLog ++ [(bgDuring, fogDuring)] }
  else s

/-- `update()` when the external `camera.update(renderer, scene)` call
throws (the body has no `try`/`finally`): the exception propagates at the
point where the scene still holds the substituted background and fog and
the group is still hidden; `count` is not incremented and no capture
completes. When the budget is already exhausted the call is a no-op and
nothing can throw. -/
def CubeCameraState.updateThrowing (s : CubeCameraState) : CubeCameraState :=
  if framesCheck s.frames0 s.count then
    { s with
      scene := { fog := jsOr s.params.fog s.scene.fog
                 background := jsOr s.params.envMap s.scene.background }
      groupVisible := false }
  else s

/-- `n` successive normally-returning `update()` calls. -/
def CubeCameraState.updateN (s : CubeCameraState) : Nat → CubeCameraState
  | 0 => s
  | n + 1 => (s.updateN n).update

/-- Whether a single `update()` call executes a capture. -/
def CubeCameraState.captures (s : CubeCameraState) : Prop :=
  framesCheck s.frames0 s.count = true

instance (s : CubeCameraState) : Decidable s.captures := by
  unfold CubeCameraState.captures; infer_instance

/-- The condition under which `update()` executes a capture, stated as the
claim states it. -/
def underBudget (s : CubeCameraState) : Prop :=
  s.frames0 = none ∨ ∃ b, s.frames0 = some b ∧ (s.count : ℚ) < b

/-- Example scene and props used to instantiate witnesses and
counterexamples. -/
def exScene : Scene := { fog := some 1, background := some 2 }

def exPropsBudget2 : CubeCameraProps := { frames := some 2 }

def exPropsOverride : CubeCameraProps := { envMap := some 5, fog := some 6 }

/-! ## three.js math primitives used by `src/core/Fisheye.ts`

These model the engine (three.js) functions the Fisheye code calls, over `ℝ`
(`Math.sqrt` becomes `Real.sqrt`). Matrices are stored row-major in named
fields; three.js stores column-major element arrays, and the translations
below account for that ordering. -/

noncomputable section

structure Vec2 where
  x : ℝ
  y : ℝ

structure Vec3 where
  x : ℝ
  y : ℝ
  z : ℝ

structure Quat where
  x : ℝ
  y : ℝ
  z : ℝ
  w : ℝ

structure Euler where
  x : ℝ
  y : ℝ
  z : ℝ

structure Sphere where
  center : Vec3
  radius : ℝ

structure Mat3 where
  m00 : ℝ
  m01 : ℝ
  m02 : ℝ
  m10 : ℝ
  m11 : ℝ
  m12 : ℝ
  m20 : ℝ
  m21 : ℝ
  m22 : ℝ

structure Mat4 where
  m00 : ℝ
  m01 : ℝ
  m02 : ℝ
  m03 : ℝ
  m10 : ℝ
  m11 : ℝ
  m12 : ℝ
  m13 : ℝ
  m20 : ℝ
  m21 : ℝ
  m22 : ℝ
  m23 : ℝ
  m30 : ℝ
  m31 : ℝ
  m32 : ℝ
  m33 : ℝ

structure Ray where
  origin : Vec3
  direction : Vec3

structure Raycaster where
  ray : Ray

def Vec3.add (a b : Vec3) : Vec3 := ⟨a.x + b.x, a.y + b.y, a.z + b.z⟩

def Vec3.sub (a b : Vec3) : Vec3 := ⟨a.x - b.x, a.y - b.y, a.z - b.z⟩

def Vec3.smul (c : ℝ) (v : Vec3) : Vec3 := ⟨c * v.x, c * v.y, c * v.z⟩

def Vec3.dot (a b : Vec3) : ℝ := a.x * b.x + a.y * b.y + a.z * b.z

def Vec3.length (v : Vec3) : ℝ := Real.sqrt (v.dot v)

/-- `Vector3.normalize`: `divideScalar(this.length() || 1)` — the zero
vector is left unchanged. -/
def Vec3.normalize (v : Vec3) : Vec3 :=
  if v.length = 0 then v else Vec3.smul (1 / v.length) v

/-- `Vector3.reflect(normal)`:
`this.sub(normal * (2 * this.dot(normal)))`. -/
def Vec3.reflect (v n : Vec3) : Vec3 := v.sub (Vec3.smul (2 * v.dot n) n)

/-- `Vector3.applyQuaternion(q)` (the `t = 2 q×v`, `v + w t + q×t`
formulation used by three.js). -/
def Vec3.applyQuaternion (v : Vec3) (q : Quat) : Vec3 :=
  let tx := 2 * (q.y * v.z - q.z * v.y)
  let ty := 2 * (q.z * v.x - q.x * v.z)
  let tz := 2 * (q.x * v.y - q.y * v.x)
  ⟨v.x + q.w * tx + q.y * tz - q.z * ty,
   v.y + q.w * ty + q.z * tx - q.x * tz,
   v.z + q.w * tz + q.x * ty - q.y * tx⟩

/-- `Quaternion.multiplyQuaternions(a, b)`; `q.premultiply(p)` is
`quatMul p q`. -/
def quatMul (a b : Quat) : Quat :=
  ⟨a.x * b.w + a.w * b.x + a.y * b.z - a.z * b.y,
   a.y * b.w + a.w * b.y + a.z * b.x - a.x * b.z,
   a.z * b.w + a.w * b.z + a.x * b.y - a.y * b.x,
   a.w * b.w - a.x * b.x - a.y * b.y - a.z * b.z⟩

def Quat.normSq (q : Quat) : ℝ := q.x * q.x + q.y * q.y + q.z * q.z + q.w * q.w

/-- `Quaternion.setFromEuler` for the default `XYZ` order (the only order
the Fisheye code uses). -/
def quatFromEuler (e : Euler) : Quat :=
  let c1 := Real.cos (e.x / 2)
  let c2 := Real.cos (e.y / 2)
  let c3 := Real.cos (e.z / 2)
  let s1 := Real.sin (e.x / 2)
  let s2 := Real.sin (e.y / 2)
  let s3 := Real.sin (e.z / 2)
  ⟨s1 * c2 * c3 + c1 * s2 * s3,
   c1 * s2 * c3 - s1 * c2 * s3,
   c1 * c2 * s3 + s1 * s2 * c3,
   c1 * c2 * c3 - s1 * s2 * s3⟩

/-- `Matrix4.compose(position, quaternion, scale)`. -/
def mat4Compose (position : Vec3) (q : Quat) (scale : Vec3) : Mat4 :=
  let x2 := q.x + q.x
  let y2 := q.y + q.y
  let z2 := q.z + q.z
  let xx := q.x * x2
  let xy := q.x * y2
  let xz := q.x * z2
  let yy := q.y * y2
  let yz := q.y * z2
  let zz := q.z * z2
  let wx := q.w * x2
  let wy := q.w * y2
  let wz := q.w * z2
  ⟨(1 - (yy + zz)) * scale.x, (xy - wz) * scale.y, (xz + wy) * scale.z, position.x,
   (xy + wz) * scale.x, (1 - (xx + zz)) * scale.y, (yz - wx) * scale.z, position.y,
   (xz - wy) * scale.x, (yz + wx) * scale.y, (1 - (xx + yy)) * scale.z, position.z,
   0, 0, 0, 1⟩

/-- `Matrix3.setFromMatrix4`: the upper-left 3×3 block. -/
def mat3FromMat4 (m : Mat4) : Mat3 :=
  ⟨m.m00, m.m01, m.m02, m.m10, m.m11, m.m12, m.m20, m.m21, m.m22⟩

def mat3Transpose (m : Mat3) : Mat3 :=
  ⟨m.m00, m.m10, m.m20, m.m01, m.m11, m.m21, m.m02, m.m12, m.m22⟩

/-- The determinant computed inline by `Matrix3.invert`. -/
def mat3Det (m : Mat3) : ℝ :=
  m.m00 * (m.m22 * m.m11 - m.m21 * m.m12) +
    m.m10 * (m.m21 * m.m02 - m.m22 * m.m01) +
    m.m20 * (m.m12 * m.m01 - m.m11 * m.m02)

/-- `Matrix3.invert`: cofactors scaled by `1/det`; the zero matrix when the
determinant is zero. -/
def mat3Invert (m : Mat3) : Mat3 :=
  if mat3Det m = 0 then ⟨0, 0, 0, 0, 0, 0, 0, 0, 0⟩
  else
    let detInv := 1 / mat3Det m
    ⟨(m.m22 * m.m11 - m.m21 * m.m12) * detInv,
     (m.m21 * m.m02 - m.m22 * m.m01) * detInv,
     (m.m12 * m.m01 - m.m11 * m.m02) * detInv,
     (m.m20 * m.m12 - m.m22 * m.m10) * detInv,
     (m.m22 * m.m00 - m.m20 * m.m02) * detInv,
     (m.m10 * m.m02 - m.m12 * m.m00) * detInv,
     (m.m21 * m.m10 - m.m20 * m.m11) * detInv,
     (m.m20 * m.m01 - m.m21 * m.m00) * detInv,
     (m.m11 * m.m00 - m.m10 * m.m01) * detInv⟩

/-- `Matrix3.getNormalMatrix(m)`:
`setFromMatrix4(m).invert().transpose()`. -/
def mat3GetNormalMatrix (m : Mat4) : Mat3 := mat3Transpose (mat3Invert (mat3FromMat4 m))

/-- `Vector3.applyMatrix3`. -/
def mat3MulVec (m : Mat3) (v : Vec3) : Vec3 :=
  ⟨m.m00 * v.x + m.m01 * v.y + m.m02 * v.z,
   m.m10 * v.x + m.m11 * v.y + m.m12 * v.z,
   m.m20 * v.x + m.m21 * v.y + m.m22 * v.z⟩

/-- `Vector3.applyNormalMatrix(m)`: `applyMatrix3(m).normalize()`. -/
def Vec3.applyNormalMatrix (v : Vec3) (m : Mat3) : Vec3 :=
  (mat3MulVec m v).normalize

/-- `Vector3.applyMatrix4` (with perspective divide). -/
def Vec3.applyMatrix4 (v : Vec3) (m : Mat4) : Vec3 :=
  let invW := 1 / (m.m30 * v.x + m.m31 * v.y + m.m32 * v.z + m.m33)
  ⟨(m.m00 * v.x + m.m01 * v.y + m.m02 * v.z + m.m03) * invW,
   (m.m10 * v.x + m.m11 * v.y + m.m12 * v.z + m.m13) * invW,
   (m.m20 * v.x + m.m21 * v.y + m.m22 * v.z + m.m23) * invW⟩

/-- `Vector3.transformDirection`: upper 3×3 application followed by
normalization. -/
def Vec3.transformDirection (v : Vec3) (m : Mat4) : Vec3 :=
  (Vec3.mk (m.m00 * v.x + m.m01 * v.y + m.m02 * v.z)
    (m.m10 * v.x + m.m11 * v.y + m.m12 * v.z)
    (m.m20 * v.x + m.m21 * v.y + m.m22 * v.z)).normalize

def Ray.at (ray : Ray) (t : ℝ) : Vec3 := ray.origin.add (Vec3.smul t ray.direction)

/-- `Ray.intersectSphere(sphere, target)`: `some point` on a hit, `none`
on a miss. -/
def Ray.intersectSphere (ray : Ray) (s : Sphere) : Option Vec3 :=
  let v := s.center.sub ray.origin
  let tca := v.dot ray.direction
  let d2 := v.dot v - tca * tca
  let radius2 := s.radius * s.radius
  if d2 > radius2 then none
  else
    let thc := Real.sqrt (radius2 - d2)
    let t0 := tca - thc
    let t1 := tca + thc
    if t1 < 0 then none
    else if t0 < 0 then some (ray.at t1)
    else some (ray.at t0)

/-- The determinant computed inline by `Matrix4.invert`
(`n11 t11 + n21 t12 + n31 t13 + n41 t14`). -/
def mat4Det (m : Mat4) : ℝ :=
  m.m00 * (m.m12 * m.m23 * m.m31 - m.m13 * m.m22 * m.m31 + m.m13 * m.m21 * m.m32
      - m.m11 * m.m23 * m.m32 - m.m12 * m.m21 * m.m33 + m.m11 * m.m22 * m.m33) +
    m.m10 * (m.m03 * m.m22 * m.m31 - m.m02 * m.m23 * m.m31 - m.m03 * m.m21 * m.m32
      + m.m01 * m.m23 * m.m32 + m.m02 * m.m21 * m.m33 - m.m01 * m.m22 * m.m33) +
    m.m20 * (m.m02 * m.m13 * m.m31 - m.m03 * m.m12 * m.m31 + m.m03 * m.m11 * m.m32
      - m.m01 * m.m13 * m.m32 - m.m02 * m.m11 * m.m33 + m.m01 * m.m12 * m.m33) +
    m.m30 * (m.m03 * m.m12 * m.m21 - m.m02 * m.m13 * m.m21 - m.m03 * m.m11 * m.m22
      + m.m01 * m.m13 * m.m22 + m.m02 * m.m11 * m.m23 - m.m01 * m.m12 * m.m23)

/-- `Matrix4.invert`: the cofactor formula of three.js; the zero matrix
when the determinant is zero. -/
def mat4Invert (m : Mat4) : Mat4 :=
  if mat4Det m = 0 then ⟨0, 0, 0, 0, 0, 0, 0, 0, 0, 0, 0, 0, 0, 0, 0, 0⟩
  else
    let detInv := 1 / mat4Det m
    ⟨(m.m12 * m.m23 * m.m31 - m.m13 * m.m22 * m.m31 + m.m13 * m.m21 * m.m32
        - m.m11 * m.m23 * m.m32 - m.m12 * m.m21 * m.m33 + m.m11 * m.m22 * m.m33) * detInv,
     (m.m03 * m.m22 * m.m31 - m.m02 * m.m23 * m.m31 - m.m03 * m.m21 * m.m32
        + m.m01 * m.m23 * m.m32 + m.m02 * m.m21 * m.m33 - m.m01 * m.m22 * m.m33) * detInv,
     (m.m02 * m.m13 * m.m31 - m.m03 * m.m12 * m.m31 + m.m03 * m.m11 * m.m32
        - m.m01 * m.m13 * m.m32 - m.m02 * m.m11 * m.m33 + m.m01 * m.m12 * m.m33) * detInv,
     (m.m03 * m.m12 * m.m21 - m.m02 * m.m13 * m.m21 - m.m03 * m.m11 * m.m22
        + m.m01 * m.m13 * m.m22 + m.m02 * m.m11 * m.m23 - m.m01 * m.m12 * m.m23) * detInv,
     (m.m13 * m.m22 * m.m30 - m.m12 * m.m23 * m.m30 - m.m13 * m.m20 * m.m32
        + m.m10 * m.m23 * m.m32 + m.m12 * m.m20 * m.m33 - m.m10 * m.m22 * m.m33) * detInv,
     (m.m02 * m.m23 * m.m30 - m.m03 * m.m22 * m.m30 + m.m03 * m.m20 * m.m32
        - m.m00 * m.m23 * m.m32 - m.m02 * m.m20 * m.m33 + m.m00 * m.m22 * m.m33) * detInv,
     (m.m03 * m.m12 * m.m30 - m.m02 * m.m13 * m.m30 - m.m03 * m.m10 * m.m32
        + m.m00 * m.m13 * m.m32 + m.m02 * m.m10 * m.m33 - m.m00 * m.m12 * m.m33) * detInv,
     (m.m02 * m.m13 * m.m20 - m.m03 * m.m12 * m.m20 + m.m03 * m.m10 * m.m22
        - m.m00 * m.m13 * m.m22 - m.m02 * m.m10 * m.m23 + m.m00 * m.m12 * m.m23) * detInv,
     (m.m11 * m.m23 * m.m30 - m.m13 * m.m21 * m.m30 + m.m13 * m.m20 * m.m31
        - m.m10 * m.m23 * m.m31 - m.m11 * m.m20 * m.m33 + m.m10 * m.m21 * m.m33) * detInv,
     (m.m03 * m.m21 * m.m30 - m.m01 * m.m23 * m.m30 - m.m03 * m.m20 * m.m31
        + m.m00 * m.m23 * m.m31 + m.m01 * m.m20 * m.m33 - m.m00 * m.m21 * m.m33) * detInv,
     (m.m01 * m.m13 * m.m30 - m.m03 * m.m11 * m.m30 + m.m03 * m.m10 * m.m31
        - m.m00 * m.m13 * m.m31 - m.m01 * m.m10 * m.m33 + m.m00 * m.m11 * m.m33) * detInv,
     (m.m03 * m.m11 * m.m20 - m.m01 * m.m13 * m.m20 - m.m03 * m.m10 * m.m21
        + m.m00 * m.m13 * m.m21 + m.m01 * m.m10 * m.m23 - m.m00 * m.m11 * m.m23) * detInv,
     (m.m12 * m.m21 * m.m30 - m.m11 * m.m22 * m.m30 - m.m12 * m.m20 * m.m31
        + m.m10 * m.m22 * m.m31 + m.m11 * m.m20 * m.m32 - m.m10 * m.m21 * m.m32) * detInv,
     (m.m01 * m.m22 * m.m30 - m.m02 * m.m21 * m.m30 + m.m02 * m.m20 * m.m31
        - m.m00 * m.m22 * m.m31 - m.m01 * m.m20 * m.m32 + m.m00 * m.m21 * m.m32) * detInv,
     (m.m02 * m.m11 * m.m30 - m.m01 * m.m12 * m.m30 - m.m02 * m.m10 * m.m31
        + m.m00 * m.m12 * m.m31 + m.m01 * m.m10 * m.m32 - m.m00 * m.m11 * m.m32) * detInv,
     (m.m01 * m.m12 * m.m20 - m.m02 * m.m11 * m.m20 + m.m02 * m.m10 * m.m21
        - m.m00 * m.m12 * m.m21 - m.m01 * m.m10 * m.m22 + m.m00 * m.m11 * m.m22) * detInv⟩

/-- `Matrix4.makeOrthographic(left, right, top, bottom, near, far)` for
the WebGL coordinate system. -/
def makeOrthographic (left right top bottom near far : ℝ) : Mat4 :=
  let w := 1 / (right - left)
  let h := 1 / (top - bottom)
  let p := 1 / (far - near)
  let x := (right + left) * w
  let y := (top + bottom) * h
  let z := (far + near) * p
  ⟨2 * w, 0, 0, -x,
   0, 2 * h, 0, -y,
   0, 0, -2 * p, -z,
   0, 0, 0, 1⟩

/-! ## Fisheye (`src/core/Fisheye.ts`) -/

/-- `FisheyeProps` with its defaults. -/
structure FisheyeProps where
  zoom : ℝ := 0
  segments : ℝ := 64
  resolution : ℝ := 896

/-- A `WebGLCubeRenderTarget` as observed by the Fisheye code: an identity
(`id`, for reference-equality and disposal accounting), its `width`
(three.js sets `width = height = size`), the identity of its `.texture`,
and the `isRenderTargetTexture` flag that `createRenderTarget` clears.
Each allocation yields a fresh `id`, and the target's texture is the
target's own (`textureId = id`). -/
structure RenderTarget where
  id : Nat
  width : ℝ
  textureId : Nat
  textureIsRenderTargetTexture : Bool

/-- The sphere mesh: its scale vector and the two material fields the
Fisheye code writes (`envMap`, `needsUpdate`). -/
structure SphereMeshState where
  scale : Vec3
  materialEnvMapTextureId : Nat
  materialNeedsUpdate : Bool

/-- The orthographic camera fields the Fisheye code reads or writes.
`near`/`far` keep their three.js constructor defaults (0.1, 2000). -/
structure OrthoCameraState where
  position : Vec3
  zoom : ℝ
  left : ℝ
  right : ℝ
  top : ℝ
  bottom : ℝ
  near : ℝ
  far : ℝ

/-- The internal `THREE.CubeCamera`: transform plus the render target it
captures into (by identity). -/
structure CubeCameraObj where
  position : Vec3
  quaternion : Quat
  renderTargetId : Nat
  near : ℝ
  far : ℝ

/-- The `temp` scratch record of the Fisheye class. `normal` and
`normalMatrix` are pure scratch outputs overwritten before every use and
observed by no claim, so they are not tracked. -/
structure TempState where
  t : Vec3
  r : Quat
  s : Vec3
  e : Euler
  sphere : Sphere

/-- The full `Fisheye` instance state, plus two bookkeeping fields
(`nextId` for fresh render-target allocation, `disposedIds` recording every
`renderTarget.dispose()` call in order). -/
structure Fisheye where
  resolution : ℝ
  segments : ℝ
  zoom : ℝ
  renderTarget : RenderTarget
  sphereMesh : SphereMeshState
  orthoCamera : OrthoCameraState
  cubeCamera : CubeCameraObj
  temp : TempState
  nextId : Nat
  disposedIds : List Nat

/-- `createRenderTarget(resolution)`: a fresh cube render target of the
given size with `texture.isRenderTargetTexture = false`. -/
def createRenderTarget (resolution : ℝ) (fresh : Nat) : RenderTarget :=
  { id := fresh, width := resolution, textureId := fresh,
    textureIsRenderTargetTexture := false }

/-- `onResize(width, height)`: reposition the orthographic camera, set its
zoom to 100 and its bounds to the half-viewport, then derive the sphere
radius `(sqrt(w*w + h*h) / 100) * (0.5 + zoom / 2)` and apply it to the
mesh scale and the cached intersection sphere. -/
def Fisheye.onResize (f : Fisheye) (width height : ℝ) : Fisheye :=
  let w := width
  let h := height
  let radius := (Real.sqrt (w * w + h * h) / 100) * (0.5 + f.zoom / 2)
  { f with
    orthoCamera := { f.orthoCamera with
      position := ⟨0, 0, 100⟩
      zoom := 100
      left := w / (-2)
      right := w / 2
      top := h / 2
      bottom := h / (-2) }
    sphereMesh := { f.sphereMesh with scale := ⟨radius, radius, radius⟩ }
    temp := { f.temp with sphere := { f.temp.sphere with radius := radius } } }

/-- The state built by the `Fisheye` constructor before its final
`onResize(100, 100)` call: render target 0 allocated, sphere material
bound to its texture, orthographic camera at three.js defaults, cube
camera `(0.1, 1000)` bound to the render target, `temp.e = (0, π, 0)` and
`temp.sphere` the default `THREE.Sphere` (center origin, radius −1). -/
def Fisheye.init (p : FisheyeProps) : Fisheye :=
  { resolution := p.resolution
    segments := p.segments
    zoom := p.zoom
    renderTarget := createRenderTarget p.resolution 0
    sphereMesh := { scale := ⟨1, 1, 1⟩, materialEnvMapTextureId := 0,
                    materialNeedsUpdate := false }
    orthoCamera := { position := ⟨0, 0, 0⟩, zoom := 1, left := -1, right := 1,
                     top := 1, bottom := -1, near := 0.1, far := 2000 }
    cubeCamera := { position := ⟨0, 0, 0⟩, quaternion := ⟨0, 0, 0, 1⟩,
                    renderTargetId := 0, near := 0.1, far := 1000 }
    temp := { t := ⟨0, 0, 0⟩, r := ⟨0, 0, 0, 1⟩, s := ⟨0, 0, 0⟩,
              e := ⟨0, Real.pi, 0⟩,
              sphere := { center := ⟨0, 0, 0⟩, radius := -1 } }
    nextId := 1
    disposedIds := [] }

/-- The `Fisheye` constructor: field initialisation followed by
`this.onResize(100, 100)`. -/
def Fisheye.new (p : FisheyeProps) : Fisheye := (Fisheye.init p).onResize 100 100

/-- `updateResolution(resolution)`: a no-op when the requested resolution
equals the current render target's width; otherwise dispose the current
target, allocate a fresh one, rebind the cube camera and the sphere
material to it and mark the material dirty. -/
def Fisheye.updateResolution (f : Fisheye) (resolution : ℝ) : Fisheye :=
  if resolution = f.renderTarget.width then f
  else
    { f with
      disposedIds := f.disposedIds ++ [f.renderTarget.id]
      renderTarget := createRenderTarget resolution f.nextId
      nextId := f.nextId + 1
      cubeCamera := { f.cubeCamera with renderTargetId := f.nextId }
      sphereMesh := { f.sphereMesh with
        materialEnvMapTextureId := f.nextId
        materialNeedsUpdate := true } }

/-- Assignment to the public mutable `zoom` field (`fisheye.zoom = z`). -/
def Fisheye.setZoom (f : Fisheye) (z : ℝ) : Fisheye := { f with zoom := z }

/-- The source camera as seen by `render`: the translation, rotation and
scale that `camera.matrixWorld.decompose(t, r, s)` extracts. -/
structure SourceCamera where
  t : Vec3
  r : Quat
  s : Vec3

/-- The world-space forward (−Z) direction of the source camera. -/
def SourceCamera.forward (cam : SourceCamera) : Vec3 :=
  Vec3.applyQuaternion ⟨0, 0, -1⟩ cam.r

/-- The two GPU passes issued by `render`, in order. -/
inductive RenderOp where
  | cubeCapture
  | sphereRender
deriving DecidableEq, Repr

/-- `render(renderer, scene, camera)`: decompose the source camera's world
matrix into `temp.t/r/s`, copy the translation onto the cube camera, set
its quaternion to `setFromEuler(temp.e).premultiply(temp.r)`, then capture
the cubemap and afterwards render the fisheye sphere. The scene contents
do not influence any tracked field; the pass order is returned as a
trace. -/
def Fisheye.render (f : Fisheye) (cam : SourceCamera) : Fisheye × List RenderOp :=
  ({ f with
      temp := { f.temp with t := cam.t, r := cam.r, s := cam.s }
      cubeCamera := { f.cubeCamera with
        position := cam.t
        quaternion := quatMul cam.r (quatFromEuler f.temp.e) } },
   [RenderOp.cubeCapture, RenderOp.sphereRender])

/-- The orthographic camera's projection matrix as recomputed by
`updateProjectionMatrix()` (no view offset): zoom-scaled half-extents fed
to `makeOrthographic`. -/
def orthoProjectionMatrix (c : OrthoCameraState) : Mat4 :=
  let dx := (c.right - c.left) / (2 * c.zoom)
  let dy := (c.top - c.bottom) / (2 * c.zoom)
  let cx := (c.right + c.left) / 2
  let cy := (c.top + c.bottom) / 2
  makeOrthographic (cx - dx) (cx + dx) (cy + dy) (cy - dy) c.near c.far

/-- The orthographic camera's world matrix. The Fisheye code only ever
sets its position (rotation stays the identity, scale stays one), and the
matrix is synchronised by the renderer before `setFromCamera` reads it. -/
def orthoMatrixWorld (c : OrthoCameraState) : Mat4 :=
  mat4Compose c.position ⟨0, 0, 0, 1⟩ ⟨1, 1, 1⟩

/-- The cube camera's world matrix, synchronised from its position and
quaternion (the cube camera has no parent, so `updateMatrixWorld` composes
exactly these; its scale is never touched). -/
def cubeMatrixWorld (c : CubeCameraObj) : Mat4 :=
  mat4Compose c.position c.quaternion ⟨1, 1, 1⟩

/-- `Raycaster.setFromCamera(coords, camera)` for an orthographic camera:
origin `(x, y, (near+far)/(near-far))` unprojected through the camera,
direction `(0,0,-1)` transformed by the camera's world matrix. -/
def setFromCameraOrtho (c : OrthoCameraState) (coords : Vec2) : Ray :=
  { origin :=
      (Vec3.applyMatrix4
        (Vec3.applyMatrix4 ⟨coords.x, coords.y, (c.near + c.far) / (c.near - c.far)⟩
          (mat4Invert (orthoProjectionMatrix c)))
        (orthoMatrixWorld c))
    direction := Vec3.transformDirection ⟨0, 0, -1⟩ (orthoMatrixWorld c) }

/-- `computeRaycastRayDirection(raycaster, pointer)`: set the raycaster
from the orthographic camera; if that ray misses the cached sphere return
(the raycaster keeps the orthographic ray); otherwise normalize the hit
point, build the cube camera's normal matrix, move the ray origin to the
cube camera's world position, reflect `(0,0,1)` off the normal, flip the
x component, apply the normal matrix (which renormalizes) and negate. -/
def Fisheye.computeRaycastRayDirection (f : Fisheye) (rc : Raycaster) (pointer : Vec2) :
    Raycaster :=
  let ray0 := setFromCameraOrtho f.orthoCamera pointer
  match ray0.intersectSphere f.temp.sphere with
  | none => { rc with ray := ray0 }
  | some hit =>
    let n := hit.normalize
    let nm := mat3GetNormalMatrix (cubeMatrixWorld f.cubeCamera)
    let origin := f.cubeCamera.position
    let d0 := Vec3.reflect ⟨0, 0, 1⟩ n
    let d1 : Vec3 := ⟨-d0.x, d0.y, d0.z⟩
    let d2 := Vec3.smul (-1) (d1.applyNormalMatrix nm)
    { rc with ray := { origin := origin, direction := d2 } }

/-- The cross-field invariant: the cube capture camera and the sphere
material reference the current render target (and its texture). -/
def Fisheye.consistent (f : Fisheye) : Prop :=
  f.cubeCamera.renderTargetId = f.renderTarget.id ∧
    f.sphereMesh.materialEnvMapTextureId = f.renderTarget.textureId

end

/-! ## CubeCamera lemmas -/

/-- A normally-returning `update()` restores `scene.fog` and
`scene.background` exactly, whether or not a capture ran. -/
theorem update_preserves_scene (s : CubeCameraState) :
    s.update.scene = s.scene := by
  unfold CubeCameraState.update
  split <;> rfl

/-- `count` after `n` normal updates starting from a freshly constructed
state with finite budget `k` is `min n k`. -/
theorem updateN_count_min (scene : Scene) (props : CubeCameraProps) (k : Nat)
    (hf : props.frames = some (k : ℚ)) (n : Nat) :
    ((CubeCamera.construct scene props).updateN n).count = min n k := by
  induction n with
  | zero => simp [CubeCameraState.updateN, CubeCamera.construct]
  | succ n ih =>
    have hfr : ((CubeCamera.construct scene props).updateN n).frames0 = some (k : ℚ) := by
      clear ih
      induction n with
      | zero => simp [CubeCameraState.updateN, CubeCamera.construct, hf]
      | succ m ihm =>
        unfold CubeCameraState.updateN CubeCameraState.update
        split <;> simpa using ihm
    unfold CubeCameraState.updateN CubeCameraState.update
    rw [hfr] at *
    by_cases h : min n k < k
    · have hn : min n k = n := by omega
      simp only [framesCheck, hfr, ih, hn]
      rw [if_pos]
      · simp [ih, hn]; omega
      · simp only [decide_eq_true_eq]
        exact_mod_cast (by omega : n < k)
    · have hn : min n k = k := by omega
      simp only [framesCheck, ih, hn]
      rw [if_neg]
      · simp [ih, hn]; omega
      · simp only [decide_eq_true_eq, not_lt]
        exact_mod_cast (le_refl k)

/-- One `update()` either performs a capture — incrementing `count` and
appending one capture record — or leaves the state untouched. -/
theorem update_cases (s : CubeCameraState) :
    (s.update.count = s.count + 1 ∧
      s.update.captureLog.length = s.captureLog.length + 1) ∨ s.update = s := by
  unfold CubeCameraState.update
  split
  · left; constructor <;> simp
  · right; rfl

/-- Along any run of normal updates from a constructed state, the number of
executed captures equals `count`. -/
theorem updateN_log_eq_count (scene : Scene) (props : CubeCameraProps) (n : Nat) :
    ((CubeCamera.construct scene props).updateN n).captureLog.length =
      ((CubeCamera.construct scene props).updateN n).count := by
  induction n with
  | zero => simp [CubeCameraState.updateN, CubeCamera.construct]
  | succ n ih =>
    unfold CubeCameraState.updateN
    rcases update_cases ((CubeCamera.construct scene props).updateN n) with ⟨h1, h2⟩ | h
    · rw [h1, h2, ih]
    · rw [h, ih]

theorem captures_iff_underBudget (s : CubeCameraState) :
    s.captures ↔ underBudget s := by
  unfold CubeCameraState.captures underBudget framesCheck
  cases h : s.frames0 with
  | none => simp
  | some k => simp

/-! ## Claim theorems for CubeCamera -/

/-- Claim C5: a capture executes on a call iff the number of captures
already performed is strictly below the budget (or the budget is
`Infinity`); the counter moves up by exactly one per executed capture and
is never decremented; once the budget is exhausted every further
`update()` is a no-op (the whole state, including the capture log that
stands for the texture contents, is unchanged); and `N ≥ k` calls from a
fresh instance with finite budget `k` perform exactly `k` captures. -/
theorem claim_C5 (s : CubeCameraState) (scene : Scene) (props : CubeCameraProps)
    (k N : Nat) (hf : props.frames = some (k : ℚ)) (hkN : k ≤ N) :
    ((s.update.count = s.count + 1 ∧
        s.update.captureLog.length = s.captureLog.length + 1) ↔ underBudget s) ∧
      (s.update.count = s.count + 1 ∨ s.update = s) ∧
      (¬ underBudget s → s.update = s) ∧
      ((CubeCamera.construct scene props).updateN N).count = k ∧
      ((CubeCamera.construct scene props).updateN N).captureLog.length = k := by
  have hcount : ((CubeCamera.construct scene props).updateN N).count = k := by
    rw [updateN_count_min scene props k hf N]; omega
  refine ⟨?_, ?_, ?_, hcount, ?_⟩
  · rw [← captures_iff_underBudget]
    unfold CubeCameraState.update CubeCameraState.captures
    constructor
    · intro ⟨h1, _⟩
      by_contra hc
      rw [if_neg (by simpa using hc)] at h1
      omega
    · intro hc
      rw [if_pos hc]
      constructor <;> simp
  · rcases update_cases s with ⟨h1, _⟩ | h
    · exact Or.inl h1
    · exact Or.inr h
  · intro hnb
    rw [← captures_iff_underBudget] at hnb
    unfold CubeCameraState.update
    rw [if_neg (by simpa [CubeCameraState.captures] using hnb)]
  · rw [updateN_log_eq_count, hcount]

theorem claim_C5_witness :
    exPropsBudget2.frames = some (2 : ℚ) ∧ 2 ≤ 3 ∧
      ((CubeCamera.construct exScene exPropsBudget2).updateN 3).count = 2 :=
  ⟨rfl, by norm_num,
    (claim_C5 (CubeCamera.construct exScene exPropsBudget2) exScene exPropsBudget2
      2 3 rfl (by norm_num)).2.2.2.1⟩

/-- Claim C4 (amended): after every `update()` call that returns normally —
whether the capture ran or was skipped because the frame budget was
exhausted — `scene.fog` and `scene.background` equal the values they had
immediately before the call. (If the external capture call throws, the
substituted values are left on the scene: see the counterexample.) -/
theorem claim_C4 (s : CubeCameraState) :
    s.update.scene.fog = s.scene.fog ∧
      s.update.scene.background = s.scene.background := by
  rw [update_preserves_scene]
  exact ⟨rfl, rfl⟩

/-- Claim C4 counterexample: when the external capture call exits
abnormally the scene is left with the substituted fog and background, so
the claim's "exited abnormally" case fails on the code (there is no
`try`/`finally` around `camera.update`). -/
theorem claim_C4_counterexample :
    ((CubeCamera.construct exScene exPropsOverride).updateThrowing).scene.fog ≠
        (CubeCamera.construct exScene exPropsOverride).scene.fog ∧
      ((CubeCamera.construct exScene exPropsOverride).updateThrowing).scene.background ≠
        (CubeCamera.construct exScene exPropsOverride).scene.background := by
  decide

/-- Claim C9: the budget check of `update()` reads the construction-time
destructured `frames` value, so mutating `params.frames` afterwards never
changes whether a capture executes; mutating `params.envMap` or
`params.fog` does take effect, because each capture reads the current
values as the temporary scene background and fog substitutes. -/
theorem claim_C9 (s : CubeCameraState) (x : Option ℚ) (em fg : Option Nat)
    (scene : Scene) (props : CubeCameraProps) :
    ((CubeCamera.construct scene props).frames0 = props.frames) ∧
      ({ s with params := { s.params with frames := x } }.captures ↔ s.captures) ∧
      { s with params := { s.params with frames := x } }.update.count = s.update.count ∧
      (s.captures →
        { s with params := { s.params with envMap := em, fog := fg } }.update.captureLog =
          s.captureLog ++ [(jsOr em s.scene.background, jsOr fg s.scene.fog)]) := by
  refine ⟨rfl, Iff.rfl, ?_, ?_⟩
  · unfold CubeCameraState.update
    split <;> rfl
  · intro hc
    unfold CubeCameraState.update
    rw [if_pos (by simpa [CubeCameraState.captures] using hc)]

theorem claim_C9_witness :
    (CubeCamera.construct exScene {}).captures ∧
      ({ CubeCamera.construct exScene {} with
          params := { (CubeCamera.construct exScene {}).params with
                        envMap := some 7, fog := none } }.update.captureLog =
        [(some 7, some 1)]) :=
  ⟨by decide,
    by
      have h := (claim_C9 (CubeCamera.construct exScene {}) (some 9) (some 7) none
        exScene {}).2.2.2 (by decide)
      simpa using h⟩


/-! ## Fisheye lemmas and claim theorems -/

theorem sqrt_million : Real.sqrt ((800 : ℝ) * 800 + 600 * 600) = 1000 := by
  rw [show (800 : ℝ) * 800 + 600 * 600 = 1000 ^ 2 by norm_num]
  exact Real.sqrt_sq (by norm_num)

/-- Claim C3: after `onResize(w, h)` with `w, h > 0` and zoom in `[0, 1]`,
the orthographic camera's bounds are `(-w/2, w/2, h/2, -h/2)` at zoom 100,
and the sphere-mesh scale and the cached intersection sphere's radius both
equal `(sqrt(w*w + h*h)/100) * (0.5 + zoom/2)`; in particular
`onResize(800, 600)` yields radius 5 at zoom 0 and radius 10 at zoom 1. -/
theorem claim_C3 (f : Fisheye) (w h : ℝ) (hw : 0 < w) (hh : 0 < h)
    (hz0 : 0 ≤ f.zoom) (hz1 : f.zoom ≤ 1) :
    (f.onResize w h).orthoCamera.left = -(w / 2) ∧
      (f.onResize w h).orthoCamera.right = w / 2 ∧
      (f.onResize w h).orthoCamera.top = h / 2 ∧
      (f.onResize w h).orthoCamera.bottom = -(h / 2) ∧
      (f.onResize w h).orthoCamera.zoom = 100 ∧
      (f.onResize w h).sphereMesh.scale =
        ⟨(Real.sqrt (w * w + h * h) / 100) * (0.5 + f.zoom / 2),
         (Real.sqrt (w * w + h * h) / 100) * (0.5 + f.zoom / 2),
         (Real.sqrt (w * w + h * h) / 100) * (0.5 + f.zoom / 2)⟩ ∧
      (f.onResize w h).temp.sphere.radius =
        (Real.sqrt (w * w + h * h) / 100) * (0.5 + f.zoom / 2) ∧
      (w = 800 → h = 600 → f.zoom = 0 →
        (f.onResize w h).temp.sphere.radius = 5) ∧
      (w = 800 → h = 600 → f.zoom = 1 →
        (f.onResize w h).temp.sphere.radius = 10) := by
  refine ⟨by simp [Fisheye.onResize]; ring, rfl, rfl,
    by simp [Fisheye.onResize]; ring, rfl, rfl, rfl, ?_, ?_⟩
  · rintro rfl rfl hz
    show (Real.sqrt (800 * 800 + 600 * 600) / 100) * (0.5 + f.zoom / 2) = 5
    rw [sqrt_million, hz]; norm_num
  · rintro rfl rfl hz
    show (Real.sqrt (800 * 800 + 600 * 600) / 100) * (0.5 + f.zoom / 2) = 10
    rw [sqrt_million, hz]; norm_num

theorem claim_C3_witness :
    (0 : ℝ) < 800 ∧ (0 : ℝ) < 600 ∧ 0 ≤ (Fisheye.new {}).zoom ∧
      (Fisheye.new {}).zoom ≤ 1 ∧
      ((Fisheye.new {}).onResize 800 600).temp.sphere.radius = 5 :=
  ⟨by norm_num, by norm_num, le_refl (0 : ℝ), zero_le_one,
    (claim_C3 (Fisheye.new {}) 800 600 (by norm_num) (by norm_num)
        (le_refl (0 : ℝ)) zero_le_one).2.2.2.2.2.2.2.1 rfl rfl rfl⟩

/-- Claim C6: `updateResolution(r)` with `r` different from the current
render target's width disposes exactly the previous target (and nothing
else), allocates exactly one fresh target of width `r`, rebinds the cube
camera and the sphere material to the new target's texture with the
material marked dirty, and the camera/material/target consistency
invariant holds after construction and is preserved by every
`updateResolution` call. -/
theorem claim_C6 (f : Fisheye) (res : ℝ) (hne : res ≠ f.renderTarget.width) :
    (f.updateResolution res).disposedIds = f.disposedIds ++ [f.renderTarget.id] ∧
      (f.updateResolution res).renderTarget.width = res ∧
      (f.updateResolution res).renderTarget.id = f.nextId ∧
      (f.updateResolution res).cubeCamera.renderTargetId =
        (f.updateResolution res).renderTarget.id ∧
      (f.updateResolution res).sphereMesh.materialEnvMapTextureId =
        (f.updateResolution res).renderTarget.textureId ∧
      (f.updateResolution res).sphereMesh.materialNeedsUpdate = true ∧
      (∀ p : FisheyeProps, (Fisheye.new p).consistent) ∧
      (∀ (g : Fisheye) (r' : ℝ), g.consistent → (g.updateResolution r').consistent) := by
  have hbranch : f.updateResolution res =
      { f with
        disposedIds := f.disposedIds ++ [f.renderTarget.id]
        renderTarget := createRenderTarget res f.nextId
        nextId := f.nextId + 1
        cubeCamera := { f.cubeCamera with renderTargetId := f.nextId }
        sphereMesh := { f.sphereMesh with
          materialEnvMapTextureId := f.nextId
          materialNeedsUpdate := true } } := by
    unfold Fisheye.updateResolution
    rw [if_neg hne]
  refine ⟨by rw [hbranch], by rw [hbranch]; simp [createRenderTarget],
    by rw [hbranch]; simp [createRenderTarget],
    by rw [hbranch]; simp [createRenderTarget],
    by rw [hbranch]; simp [createRenderTarget],
    by rw [hbranch],
    fun p => ⟨rfl, rfl⟩, ?_⟩
  intro g r' hg
  unfold Fisheye.updateResolution
  split
  · exact hg
  · exact ⟨rfl, rfl⟩

theorem claim_C6_witness :
    (512 : ℝ) ≠ (Fisheye.new {}).renderTarget.width ∧
      ((Fisheye.new {}).updateResolution 512).disposedIds = [0] :=
  ⟨by norm_num [Fisheye.new, Fisheye.init, Fisheye.onResize, createRenderTarget],
    by
      have h := (claim_C6 (Fisheye.new {}) 512
        (by norm_num [Fisheye.new, Fisheye.init, Fisheye.onResize, createRenderTarget])).1
      simpa [Fisheye.new, Fisheye.init, Fisheye.onResize] using h⟩

/-- Claim C7: `updateResolution(r)` with `r` equal to the current render
target's width leaves the instance bit-identical: no disposal, and the
render target is the same object. -/
theorem claim_C7 (f : Fisheye) (res : ℝ) (heq : res = f.renderTarget.width) :
    f.updateResolution res = f ∧
      (f.updateResolution res).renderTarget.id = f.renderTarget.id ∧
      (f.updateResolution res).disposedIds = f.disposedIds := by
  have h : f.updateResolution res = f := by
    unfold Fisheye.updateResolution
    rw [if_pos heq]
  exact ⟨h, by rw [h], by rw [h]⟩

theorem claim_C7_witness :
    (896 : ℝ) = (Fisheye.new {}).renderTarget.width ∧
      (Fisheye.new {}).updateResolution 896 = Fisheye.new {} :=
  ⟨by norm_num [Fisheye.new, Fisheye.init, Fisheye.onResize, createRenderTarget],
    (claim_C7 (Fisheye.new {}) 896
      (by norm_num [Fisheye.new, Fisheye.init, Fisheye.onResize, createRenderTarget])).1⟩

/-- Claim C10: assigning the public `zoom` field leaves the sphere-mesh
scale and the cached intersection sphere's radius unchanged; the new zoom
takes effect at the next `onResize`, whose radius then uses the assigned
value. -/
theorem claim_C10 (f : Fisheye) (z w h : ℝ) :
    (f.setZoom z).sphereMesh.scale = f.sphereMesh.scale ∧
      (f.setZoom z).temp.sphere.radius = f.temp.sphere.radius ∧
      (f.setZoom z).zoom = z ∧
      ((f.setZoom z).onResize w h).temp.sphere.radius =
        (Real.sqrt (w * w + h * h) / 100) * (0.5 + z / 2) ∧
      ((f.setZoom z).onResize w h).sphereMesh.scale =
        ⟨(Real.sqrt (w * w + h * h) / 100) * (0.5 + z / 2),
         (Real.sqrt (w * w + h * h) / 100) * (0.5 + z / 2),
         (Real.sqrt (w * w + h * h) / 100) * (0.5 + z / 2)⟩ :=
  ⟨rfl, rfl, rfl, rfl, rfl⟩

/-- The fixed yaw used by `render`: `Euler(0, π, 0)` as a quaternion is
the 180° rotation about Y, `(0, 1, 0, 0)`. -/
theorem quatFromEuler_pi_y : quatFromEuler ⟨0, Real.pi, 0⟩ = ⟨0, 1, 0, 0⟩ := by
  simp [quatFromEuler]

/-- Claim C8: `render` copies the source camera's world translation onto
the cube camera, sets the cube camera's quaternion to the source rotation
composed with the fixed 180° yaw (`setFromEuler(0, π, 0)` premultiplied by
the source rotation, i.e. `r * (0,1,0,0)`), and issues the six-face
cubemap capture strictly before the sphere render pass. -/
theorem claim_C8 (f : Fisheye) (cam : SourceCamera)
    (he : f.temp.e = ⟨0, Real.pi, 0⟩) :
    (f.render cam).1.cubeCamera.position = cam.t ∧
      (f.render cam).1.cubeCamera.quaternion =
        quatMul cam.r (quatFromEuler ⟨0, Real.pi, 0⟩) ∧
      quatFromEuler ⟨0, Real.pi, 0⟩ = ⟨0, 1, 0, 0⟩ ∧
      (f.render cam).1.cubeCamera.quaternion = quatMul cam.r ⟨0, 1, 0, 0⟩ ∧
      (f.render cam).2 = [RenderOp.cubeCapture, RenderOp.sphereRender] := by
  refine ⟨rfl, ?_, quatFromEuler_pi_y, ?_, rfl⟩
  · show quatMul cam.r (quatFromEuler f.temp.e) = _
    rw [he]
  · show quatMul cam.r (quatFromEuler f.temp.e) = _
    rw [he, quatFromEuler_pi_y]

theorem claim_C8_witness :
    (Fisheye.new {}).temp.e = ⟨0, Real.pi, 0⟩ ∧
      ((Fisheye.new {}).render ⟨⟨0, 0, 0⟩, ⟨0, 0, 0, 1⟩, ⟨1, 1, 1⟩⟩).2 =
        [RenderOp.cubeCapture, RenderOp.sphereRender] :=
  ⟨rfl, (claim_C8 (Fisheye.new {}) ⟨⟨0, 0, 0⟩, ⟨0, 0, 0, 1⟩, ⟨1, 1, 1⟩⟩ rfl).2.2.2.2⟩

/-! ## Evaluating the orthographic pick ray -/

theorem normalize_negz : Vec3.normalize ⟨0, 0, -1⟩ = ⟨0, 0, -1⟩ := by
  unfold Vec3.normalize Vec3.length Vec3.dot
  norm_num [Real.sqrt_one, Vec3.smul]

/-- `Matrix4.invert` on the sparse shape produced by `makeOrthographic`. -/
theorem mat4Invert_diag (a b c d : ℝ) (ha : a ≠ 0) (hb : b ≠ 0) (hc : c ≠ 0) :
    mat4Invert ⟨a, 0, 0, 0, 0, b, 0, 0, 0, 0, c, d, 0, 0, 0, 1⟩ =
      ⟨1 / a, 0, 0, 0, 0, 1 / b, 0, 0, 0, 0, 1 / c, -(d / c), 0, 0, 0, 1⟩ := by
  have hdet : mat4Det ⟨a, 0, 0, 0, 0, b, 0, 0, 0, 0, c, d, 0, 0, 0, 1⟩ = a * (b * c) := by
    unfold mat4Det
    ring
  unfold mat4Invert
  rw [hdet, if_neg (mul_ne_zero ha (mul_ne_zero hb hc))]
  congr 1
  all_goals field_simp
  all_goals try ring
  all_goals simp

/-- The projection matrix the resized orthographic camera feeds to the
unprojection: zoom 100 shrinks the half-extents `w/2, h/2` to
`w/200, h/200`, and the three.js defaults `near = 0.1`, `far = 2000`
produce the fixed depth column. -/
theorem orthoProjectionMatrix_resized (w h : ℝ) (hw : w ≠ 0) (hh : h ≠ 0) :
    orthoProjectionMatrix
        ⟨⟨0, 0, 100⟩, 100, w / (-2), w / 2, h / 2, h / (-2), 0.1, 2000⟩ =
      ⟨200 / w, 0, 0, 0,
       0, 200 / h, 0, 0,
       0, 0, -(20 / 19999), -(20001 / 19999),
       0, 0, 0, 1⟩ := by
  unfold orthoProjectionMatrix makeOrthographic
  congr 1
  all_goals field_simp
  all_goals try ring
  all_goals simp [mul_inv_cancel₀ hw, mul_inv_cancel₀ hh]

/-- The pick ray `setFromCamera` builds on a camera resized to `(w, h)`:
origin `(w/200 * px, h/200 * py, 100)` (the camera plane) and direction
`(0, 0, -1)`. -/
theorem setFromCameraOrtho_eval (w h px py : ℝ) (hw : w ≠ 0) (hh : h ≠ 0) :
    setFromCameraOrtho
        ⟨⟨0, 0, 100⟩, 100, w / (-2), w / 2, h / 2, h / (-2), 0.1, 2000⟩ ⟨px, py⟩ =
      ⟨⟨w / 200 * px, h / 200 * py, 100⟩, ⟨0, 0, -1⟩⟩ := by
  have hworld : orthoMatrixWorld
      ⟨⟨0, 0, 100⟩, 100, w / (-2), w / 2, h / 2, h / (-2), 0.1, 2000⟩ =
      ⟨1, 0, 0, 0, 0, 1, 0, 0, 0, 0, 1, 100, 0, 0, 0, 1⟩ := by
    unfold orthoMatrixWorld mat4Compose
    norm_num
  unfold setFromCameraOrtho
  rw [orthoProjectionMatrix_resized w h hw hh, hworld,
    mat4Invert_diag (200 / w) (200 / h) (-(20 / 19999)) (-(20001 / 19999))
      (div_ne_zero (by norm_num) hw) (div_ne_zero (by norm_num) hh) (by norm_num)]
  rw [Ray.mk.injEq]
  constructor
  · unfold Vec3.applyMatrix4
    dsimp only
    rw [Vec3.mk.injEq]
    refine ⟨?_, ?_, ?_⟩
    all_goals norm_num
    all_goals field_simp
    all_goals ring
  · unfold Vec3.transformDirection
    dsimp only
    norm_num [normalize_negz]

/-! ## The center pick ray against the cached sphere -/

/-- The center pick ray `(0,0,100) → -z` hits an origin-centered sphere of
radius `R > 0` at `(0, 0, R)` (or at `(0, 0, -R)` when the camera sits
inside the sphere, `R > 100`). -/
theorem intersect_center (R : ℝ) (hR : 0 < R) :
    Ray.intersectSphere ⟨⟨0, 0, 100⟩, ⟨0, 0, -1⟩⟩ ⟨⟨0, 0, 0⟩, R⟩ =
      some (if 100 - R < 0 then ⟨0, 0, -R⟩ else ⟨0, 0, R⟩) := by
  unfold Ray.intersectSphere
  dsimp only [Vec3.sub, Vec3.dot]
  norm_num
  have hsq : Real.sqrt (R * R) = R := Real.sqrt_mul_self hR.le
  rw [hsq]
  refine ⟨by positivity, by nlinarith, ?_⟩
  by_cases hcase : 100 < R
  · rw [if_pos hcase, if_pos hcase]
    simp only [Ray.at, Vec3.add, Vec3.smul, Option.some.injEq, Vec3.mk.injEq]
    norm_num
  · rw [if_neg hcase, if_neg hcase]
    simp only [Ray.at, Vec3.add, Vec3.smul, Option.some.injEq, Vec3.mk.injEq]
    norm_num

theorem normalize_zR (R : ℝ) (hR : 0 < R) :
    Vec3.normalize ⟨0, 0, R⟩ = ⟨0, 0, 1⟩ := by
  unfold Vec3.normalize Vec3.length Vec3.dot
  norm_num
  rw [Real.sqrt_mul_self hR.le]
  rw [if_neg hR.ne']
  simp [Vec3.smul, one_div, inv_mul_cancel₀ hR.ne']

theorem normalize_zNegR (R : ℝ) (hR : 0 < R) :
    Vec3.normalize ⟨0, 0, -R⟩ = ⟨0, 0, -1⟩ := by
  unfold Vec3.normalize Vec3.length Vec3.dot
  norm_num
  rw [Real.sqrt_mul_self hR.le]
  rw [if_neg hR.ne']
  simp [Vec3.smul, one_div]
  rw [inv_mul_cancel₀ hR.ne']

/-- Reflecting the fixed forward vector `(0,0,1)` off a unit ±z normal
gives `(0,0,-1)` in both cases. -/
theorem reflect_z_unit (s : ℝ) (hs : s * s = 1) :
    Vec3.reflect ⟨0, 0, 1⟩ ⟨0, 0, s⟩ = ⟨0, 0, -1⟩ := by
  simp only [Vec3.reflect, Vec3.sub, Vec3.smul, Vec3.dot, Vec3.mk.injEq]
  refine ⟨by ring, by ring, by linear_combination (-2 : ℝ) * hs⟩

/-! ## The environment-sampling inversion: normal matrix algebra -/

/-- The upper 3×3 of a translation–rotation compose has determinant 1 for
a unit quaternion. -/
theorem det3_rot (t : Vec3) (q : Quat) (hq : q.normSq = 1) :
    mat3Det (mat3FromMat4 (mat4Compose t q ⟨1, 1, 1⟩)) = 1 := by
  simp only [mat3Det, mat3FromMat4, mat4Compose]
  unfold Quat.normSq at hq
  linear_combination (4 * (q.x ^ 2 + q.y ^ 2 + q.z ^ 2)) * hq

/-- Applying the cube camera's normal matrix to `(0,0,-1)` equals rotating
`(0,0,-1)` by the camera's (unit) quaternion: the inverse-transpose of a
rotation is the rotation itself. -/
theorem normalMatrix_negz (t : Vec3) (q : Quat) (hq : q.normSq = 1) :
    mat3MulVec (mat3GetNormalMatrix (mat4Compose t q ⟨1, 1, 1⟩)) ⟨0, 0, -1⟩ =
      Vec3.applyQuaternion ⟨0, 0, -1⟩ q := by
  have hdet := det3_rot t q hq
  unfold Quat.normSq at hq
  simp only [mat3GetNormalMatrix, mat3Invert, hdet]
  norm_num
  simp only [mat3Transpose, mat3MulVec, mat3FromMat4, mat4Compose, Vec3.applyQuaternion,
    Vec3.mk.injEq]
  refine ⟨?_, ?_, ?_⟩
  · linear_combination (-4 * q.x * q.z) * hq
  · linear_combination (-4 * q.y * q.z) * hq
  · linear_combination (-4 * q.z * q.z) * hq

/-- Composing the source rotation with the 180° yaw preserves the
quaternion norm. -/
theorem normSq_mul_yaw (r : Quat) : (quatMul r ⟨0, 1, 0, 0⟩).normSq = r.normSq := by
  simp only [quatMul, Quat.normSq]
  ring

/-- A unit quaternion applied to the unit vector `(0,0,-1)` needs no
renormalization. -/
theorem normalize_applyQuat (q : Quat) (hq : q.normSq = 1) :
    (Vec3.applyQuaternion ⟨0, 0, -1⟩ q).normalize = Vec3.applyQuaternion ⟨0, 0, -1⟩ q := by
  unfold Quat.normSq at hq
  have hdot : (Vec3.applyQuaternion ⟨0, 0, -1⟩ q).dot (Vec3.applyQuaternion ⟨0, 0, -1⟩ q) = 1 := by
    simp only [Vec3.applyQuaternion, Vec3.dot]
    linear_combination (4 * (q.x ^ 2 + q.y ^ 2)) * hq
  unfold Vec3.normalize Vec3.length
  rw [hdot, Real.sqrt_one]
  norm_num [Vec3.smul]

/-- Negating `(0,0,-1)` rotated by `r * yaw180` undoes the yaw: the result
is `(0,0,-1)` rotated by `r` alone — the source camera's forward. -/
theorem neg_applyQuat (r : Quat) (hr : r.normSq = 1) :
    Vec3.smul (-1) (Vec3.applyQuaternion ⟨0, 0, -1⟩ (quatMul r ⟨0, 1, 0, 0⟩)) =
      Vec3.applyQuaternion ⟨0, 0, -1⟩ r := by
  unfold Quat.normSq at hr
  simp only [Vec3.smul, Vec3.applyQuaternion, quatMul, Vec3.mk.injEq]
  refine ⟨by ring, by ring, ?_⟩
  linear_combination (-2 : ℝ) * hr

/-- The whole hit branch of `computeRaycastRayDirection` for the center
pointer: for any state whose orthographic pick ray is the center ray, with
an origin-centered cached sphere of positive radius and a unit cube-camera
quaternion, the raycaster ends at the cube camera's position with
direction `-(applyQuaternion (0,0,-1) quaternion)`. -/
theorem compute_center_hit (f : Fisheye) (rc : Raycaster)
    (hray : setFromCameraOrtho f.orthoCamera ⟨0, 0⟩ = ⟨⟨0, 0, 100⟩, ⟨0, 0, -1⟩⟩)
    (hcen : f.temp.sphere.center = ⟨0, 0, 0⟩) (hR : 0 < f.temp.sphere.radius)
    (hq : f.cubeCamera.quaternion.normSq = 1) :
    f.computeRaycastRayDirection rc ⟨0, 0⟩ =
      { rc with ray := Ray.mk f.cubeCamera.position
                         (Vec3.smul (-1)
                           (Vec3.applyQuaternion ⟨0, 0, -1⟩
                             f.cubeCamera.quaternion)) } := by
  have hsph : f.temp.sphere = ⟨⟨0, 0, 0⟩, f.temp.sphere.radius⟩ := by
    rw [← hcen]
  unfold Fisheye.computeRaycastRayDirection
  rw [hray, hsph]
  dsimp only
  rw [intersect_center f.temp.sphere.radius hR]
  dsimp only
  by_cases hcase : 100 - f.temp.sphere.radius < 0
  · rw [if_pos hcase, normalize_zNegR f.temp.sphere.radius hR]
    rw [show Vec3.mk (0:ℝ) 0 (-1) = ⟨0, 0, ((-1:ℝ))⟩ from rfl,
      reflect_z_unit (-1) (by norm_num)]
    unfold Vec3.applyNormalMatrix cubeMatrixWorld
    norm_num
    rw [normalMatrix_negz f.cubeCamera.position f.cubeCamera.quaternion hq,
      normalize_applyQuat f.cubeCamera.quaternion hq]
  · rw [if_neg hcase, normalize_zR f.temp.sphere.radius hR]
    rw [show Vec3.mk (0:ℝ) 0 1 = ⟨0, 0, ((1:ℝ))⟩ from rfl,
      reflect_z_unit 1 (by norm_num)]
    unfold Vec3.applyNormalMatrix cubeMatrixWorld
    norm_num
    rw [normalMatrix_negz f.cubeCamera.position f.cubeCamera.quaternion hq,
      normalize_applyQuat f.cubeCamera.quaternion hq]

/-- Claim C1: after `render(renderer, scene, sourceCamera)` on a resized
Fisheye, `computeRaycastRayDirection` at the exact center pointer `(0,0)`
sets the raycaster's direction to the source camera's world forward (−Z)
direction as of that `render` call, and the ray origin to the source
camera's world position, which `render` copied onto the internal cube
camera. -/
theorem claim_C1 (p : FisheyeProps) (w h : ℝ) (cam : SourceCamera) (rc : Raycaster)
    (f : Fisheye) (rc' : Raycaster)
    (hw : 0 < w) (hh : 0 < h) (hz : 0 ≤ p.zoom) (hr : cam.r.normSq = 1)
    (hf : f = (((Fisheye.new p).onResize w h).render cam).1)
    (hrc : rc' = f.computeRaycastRayDirection rc ⟨0, 0⟩) :
    rc'.ray.direction = cam.forward ∧ rc'.ray.origin = cam.t ∧
      f.cubeCamera.position = cam.t := by
  subst hf hrc
  have hray : setFromCameraOrtho
      (((Fisheye.new p).onResize w h).render cam).1.orthoCamera ⟨0, 0⟩ =
      ⟨⟨0, 0, 100⟩, ⟨0, 0, -1⟩⟩ := by
    show setFromCameraOrtho
      ⟨⟨0, 0, 100⟩, 100, w / (-2), w / 2, h / 2, h / (-2), 0.1, 2000⟩ ⟨0, 0⟩ = _
    rw [setFromCameraOrtho_eval w h 0 0 hw.ne' hh.ne']
    norm_num
  have hR : 0 < (((Fisheye.new p).onResize w h).render cam).1.temp.sphere.radius := by
    show 0 < (Real.sqrt (w * w + h * h) / 100) * (0.5 + p.zoom / 2)
    have h1 : 0 < Real.sqrt (w * w + h * h) := Real.sqrt_pos.mpr (by nlinarith)
    have h2 : (0 : ℝ) < 0.5 + p.zoom / 2 := by linarith
    exact mul_pos (div_pos h1 (by norm_num)) h2
  have hqq : (((Fisheye.new p).onResize w h).render cam).1.cubeCamera.quaternion =
      quatMul cam.r ⟨0, 1, 0, 0⟩ := by
    show quatMul cam.r (quatFromEuler ⟨0, Real.pi, 0⟩) = _
    rw [quatFromEuler_pi_y]
  have hq1 : (((Fisheye.new p).onResize w h).render cam).1.cubeCamera.quaternion.normSq
      = 1 := by
    rw [hqq, normSq_mul_yaw]
    exact hr
  have hkey := compute_center_hit (((Fisheye.new p).onResize w h).render cam).1 rc
    hray rfl hR hq1
  refine ⟨?_, ?_, rfl⟩
  · rw [hkey]
    show Vec3.smul (-1) (Vec3.applyQuaternion ⟨0, 0, -1⟩
      (((Fisheye.new p).onResize w h).render cam).1.cubeCamera.quaternion) = cam.forward
    rw [hqq, neg_applyQuat cam.r hr]
    rfl
  · rw [hkey]
    rfl

theorem claim_C1_witness :
    (0 : ℝ) < 800 ∧ (0 : ℝ) < 600 ∧ 0 ≤ ({} : FisheyeProps).zoom ∧
      (Quat.normSq ⟨0, 0, 0, 1⟩ = 1) ∧
      ((((Fisheye.new {}).onResize 800 600).render
            ⟨⟨1, 2, 3⟩, ⟨0, 0, 0, 1⟩, ⟨1, 1, 1⟩⟩).1.computeRaycastRayDirection
          ⟨⟨⟨0, 0, 0⟩, ⟨0, 0, 0⟩⟩⟩ ⟨0, 0⟩).ray.origin = ⟨1, 2, 3⟩ :=
  ⟨by norm_num, by norm_num, le_refl (0 : ℝ), by norm_num [Quat.normSq],
    (claim_C1 {} 800 600 ⟨⟨1, 2, 3⟩, ⟨0, 0, 0, 1⟩, ⟨1, 1, 1⟩⟩
      ⟨⟨⟨0, 0, 0⟩, ⟨0, 0, 0⟩⟩⟩ _ _ (by norm_num) (by norm_num) (le_refl (0 : ℝ))
      (by norm_num [Quat.normSq]) rfl rfl).2.1⟩

/-! ## Claim C2: behaviour on a missing pick ray -/

/-- On a miss, `computeRaycastRayDirection` returns early — but only after
`setFromCamera` has already overwritten the raycaster's ray with the
orthographic camera ray. -/
theorem computeMiss (f : Fisheye) (rc : Raycaster) (ptr : Vec2)
    (hmiss : (setFromCameraOrtho f.orthoCamera ptr).intersectSphere f.temp.sphere
      = none) :
    f.computeRaycastRayDirection rc ptr =
      { rc with ray := setFromCameraOrtho f.orthoCamera ptr } := by
  unfold Fisheye.computeRaycastRayDirection
  dsimp only
  rw [hmiss]

/-- The orthographic pick ray at pointer `(3, 0)` on an `800 × 600`
viewport. -/
theorem ray_at_3_0 :
    setFromCameraOrtho ((Fisheye.new {}).onResize 800 600).orthoCamera ⟨3, 0⟩ =
      ⟨⟨12, 0, 100⟩, ⟨0, 0, -1⟩⟩ := by
  show setFromCameraOrtho
    ⟨⟨0, 0, 100⟩, 100, (800 : ℝ) / (-2), 800 / 2, 600 / 2, 600 / (-2), 0.1, 2000⟩
    ⟨3, 0⟩ = _
  rw [setFromCameraOrtho_eval 800 600 3 0 (by norm_num) (by norm_num)]
  norm_num

/-- The cached intersection sphere after `onResize(800, 600)` at zoom 0:
center origin, radius 5. -/
theorem sphere_800_600 :
    ((Fisheye.new {}).onResize 800 600).temp.sphere = ⟨⟨0, 0, 0⟩, 5⟩ := by
  show Sphere.mk ⟨0, 0, 0⟩
    ((Real.sqrt ((800 : ℝ) * 800 + 600 * 600) / 100) * (0.5 + 0 / 2)) = _
  rw [sqrt_million]
  norm_num

/-- The pointer `(3, 0)` (outside the normalized viewport) yields a pick
ray that misses the radius-5 sphere. -/
theorem miss_at_3_0 :
    (setFromCameraOrtho ((Fisheye.new {}).onResize 800 600).orthoCamera
        ⟨3, 0⟩).intersectSphere ((Fisheye.new {}).onResize 800 600).temp.sphere
      = none := by
  rw [ray_at_3_0, sphere_800_600]
  unfold Ray.intersectSphere
  dsimp only [Vec3.sub, Vec3.dot]
  norm_num

/-- Claim C2 counterexample: at a pointer whose orthographic ray misses
the cached sphere, the call does modify the raycaster — the previous
origin `(5,5,5)` is replaced by the orthographic ray origin `(12,0,100)` —
refuting "the raycaster's ray origin and direction equal their values from
before the call". -/
theorem claim_C2_counterexample :
    ((setFromCameraOrtho ((Fisheye.new {}).onResize 800 600).orthoCamera
        ⟨3, 0⟩).intersectSphere ((Fisheye.new {}).onResize 800 600).temp.sphere
      = none) ∧
      (((Fisheye.new {}).onResize 800 600).computeRaycastRayDirection
          ⟨⟨⟨5, 5, 5⟩, ⟨1, 0, 0⟩⟩⟩ ⟨3, 0⟩).ray.origin ≠
        (⟨5, 5, 5⟩ : Vec3) := by
  refine ⟨miss_at_3_0, ?_⟩
  rw [computeMiss _ _ _ miss_at_3_0, ray_at_3_0]
  intro hcontra
  rw [Vec3.mk.injEq] at hcontra
  norm_num at hcontra

/-- Claim C2 (amended): on a pointer whose orthographic-camera ray does
not intersect the cached intersection sphere, `computeRaycastRayDirection`
returns without applying the fisheye (cube-camera) transformation, leaving
the raycaster set to the plain orthographic camera ray through the pointer
(which `setFromCamera` already wrote before the miss was detected). -/
theorem claim_C2 (f : Fisheye) (rc : Raycaster) (ptr : Vec2)
    (hmiss : (setFromCameraOrtho f.orthoCamera ptr).intersectSphere f.temp.sphere
      = none) :
    f.computeRaycastRayDirection rc ptr =
      { rc with ray := setFromCameraOrtho f.orthoCamera ptr } :=
  computeMiss f rc ptr hmiss

theorem claim_C2_witness :
    ((setFromCameraOrtho ((Fisheye.new {}).onResize 800 600).orthoCamera
        ⟨3, 0⟩).intersectSphere ((Fisheye.new {}).onResize 800 600).temp.sphere
      = none) ∧
      ((Fisheye.new {}).onResize 800 600).computeRaycastRayDirection
          ⟨⟨⟨0, 0, 0⟩, ⟨0, 0, 1⟩⟩⟩ ⟨3, 0⟩ =
        { ray := setFromCameraOrtho ((Fisheye.new {}).onResize 800 600).orthoCamera
            ⟨3, 0⟩ } :=
  ⟨miss_at_3_0,
    claim_C2 ((Fisheye.new {}).onResize 800 600) ⟨⟨⟨0, 0, 0⟩, ⟨0, 0, 1⟩⟩⟩ ⟨3, 0⟩
      miss_at_3_0⟩

end DreiVanilla
